import Mathlib

/-!
Verification development for the PRISMA 2020 flow-diagram rendering engine
(`generate_diagram` in `app.py`).  The engine is embedded shallowly: the
field mapping is an association list of strings, the style catalog is a
fixed list of profiles, and a render produces a `Plan` — the full list of
boxes, connectors, banners and phase bands with exact rational coordinates,
in the source's drawing order.
-/

/-- A field mapping: the flat string-to-string form data passed to the engine. -/
abbrev FieldMapping := List (String × String)

/-- Lookup semantics of a Python dict built from the form: first binding wins. -/
def fget (d : FieldMapping) : String → Option String :=
  fun k => (d.find? (fun p => p.1 == k)).map (fun p => p.2)

/-- `d.get(k, dflt)` on the mapping-as-function. -/
def getv (g : String → Option String) (k dflt : String) : String :=
  (g k).getD dflt

/-- Python string truthiness fallback: `s or dflt`. -/
def orElse (s dflt : String) : String :=
  if s = "" then dflt else s

/-- The idiom `d.get(k, "0") or "0"`. -/
def getCount1 (g : String → Option String) (k : String) : String :=
  orElse (getv g k "0") "0"

/-- The idiom `d.get(k1, d.get(k2, "0")) or "0"` (primary key with legacy alias). -/
def getCount2 (g : String → Option String) (k1 k2 : String) : String :=
  orElse (getv g k1 (getv g k2 "0")) "0"

/-- Python `str.strip()`: drop whitespace from both ends of the string. -/
def pyStrip (s : String) : String :=
  ⟨((s.data.dropWhile Char.isWhitespace).reverse.dropWhile Char.isWhitespace).reverse⟩

/-- The idiom `d.get(k, "").strip()`. -/
def getStrip1 (g : String → Option String) (k : String) : String :=
  pyStrip (getv g k "")

/-- The idiom `d.get(k1, d.get(k2, "")).strip()`. -/
def getStrip2 (g : String → Option String) (k1 k2 : String) : String :=
  pyStrip (getv g k1 (getv g k2 ""))

/-- A visual style profile (one entry of `DIAGRAM_STYLES`). -/
structure Style where
  name : String
  bg_col : String
  boxstyle : String
  box_lw : ℚ
  arrow_lw : ℚ
  box_fg : String
  box_edge : String
  inc_fg : String
  inc_edge : String
  inc_lw : ℚ
  side_fg : String
  side_edge : String
  text_col : String
  title_col : String
  arrow_col : String
  shadow : Bool
  phase_bands : Bool
  phase_cols : Option (List String) := none
  phase_box_cols : Option (List (String × String)) := none
  font_scale : Option ℚ := none

def classicStyle : Style :=
  { name := "Classic Blue", bg_col := "white"
    boxstyle := "round,pad=0.03", box_lw := 1.3, arrow_lw := 1.3
    box_fg := "#f0f7ff", box_edge := "#2c3e50"
    inc_fg := "#d0eaff", inc_edge := "#1a6fa0", inc_lw := 2.0
    side_fg := "white", side_edge := "#2c3e50"
    text_col := "#222222", title_col := "#1a3a5c", arrow_col := "#2c3e50"
    shadow := false, phase_bands := false }

def academicStyle : Style :=
  { name := "Academic Square", bg_col := "white"
    boxstyle := "square,pad=0.04", box_lw := 2.0, arrow_lw := 1.6
    box_fg := "#ffffff", box_edge := "#111111"
    inc_fg := "#f5f5ff", inc_edge := "#111111", inc_lw := 2.5
    side_fg := "#fffde7", side_edge := "#888800"
    text_col := "#111111", title_col := "#111111", arrow_col := "#111111"
    shadow := false, phase_bands := true
    phase_cols := some ["#1565c0", "#2e7d32", "#e65100", "#6a1b9a", "#00695c"] }

def colorfulStyle : Style :=
  { name := "Colorful Phases", bg_col := "#f8faff"
    boxstyle := "round,pad=0.04", box_lw := 1.8, arrow_lw := 1.5
    box_fg := "#e3f2fd", box_edge := "#1565c0"
    inc_fg := "#e8f5e9", inc_edge := "#2e7d32", inc_lw := 2.5
    side_fg := "#fff3e0", side_edge := "#e65100"
    text_col := "#1a1a2e", title_col := "#1a237e", arrow_col := "#455a64"
    shadow := false, phase_bands := false
    phase_box_cols := some [("#e3f2fd", "#1565c0"), ("#fff9c4", "#f57f17"),
                            ("#ffe0b2", "#e65100"), ("#f3e5f5", "#7b1fa2")] }

def minimalStyle : Style :=
  { name := "Minimal Outline", bg_col := "white"
    boxstyle := "square,pad=0.02", box_lw := 0.75, arrow_lw := 0.9
    box_fg := "white", box_edge := "#888888"
    inc_fg := "#f5f5f5", inc_edge := "#333333", inc_lw := 1.3
    side_fg := "white", side_edge := "#bbbbbb"
    text_col := "#333333", title_col := "#333333", arrow_col := "#666666"
    shadow := false, phase_bands := false }

def boldNavyStyle : Style :=
  { name := "Bold Navy", bg_col := "#e8eeff"
    boxstyle := "round,pad=0.04", box_lw := 0.5, arrow_lw := 1.8
    box_fg := "#1a3a6a", box_edge := "#0a2040"
    inc_fg := "#0a5f8a", inc_edge := "#04315a", inc_lw := 2.0
    side_fg := "#2e4a80", side_edge := "#0a2040"
    text_col := "#ffffff", title_col := "#0a2040", arrow_col := "#1a3a6a"
    shadow := false, phase_bands := false }

def shadowedStyle : Style :=
  { name := "Shadowed Cards", bg_col := "#eef0f4"
    boxstyle := "round,pad=0.04", box_lw := 1.0, arrow_lw := 1.3
    box_fg := "#ffffff", box_edge := "#b0bcd0"
    inc_fg := "#e8f4fd", inc_edge := "#1a6fa0", inc_lw := 2.0
    side_fg := "#ffffff", side_edge := "#c0c8d4"
    text_col := "#1a2a40", title_col := "#1a2a40", arrow_col := "#4a5a70"
    shadow := true, phase_bands := false }

def greenStyle : Style :=
  { name := "Forest Green", bg_col := "#f0fff5"
    boxstyle := "round,pad=0.03", box_lw := 1.5, arrow_lw := 1.3
    box_fg := "#e8f8ee", box_edge := "#1a6a38"
    inc_fg := "#c3f0d0", inc_edge := "#0d5228", inc_lw := 2.0
    side_fg := "#f0ffe8", side_edge := "#3a8a50"
    text_col := "#0a2010", title_col := "#1a4a28", arrow_col := "#1a6a38"
    shadow := false, phase_bands := false }

def warmStyle : Style :=
  { name := "Warm Amber", bg_col := "#fffef0"
    boxstyle := "round,pad=0.03", box_lw := 1.5, arrow_lw := 1.3
    box_fg := "#fff8e8", box_edge := "#c05800"
    inc_fg := "#ffe5b8", inc_edge := "#a84000", inc_lw := 2.0
    side_fg := "#fff3d8", side_edge := "#d07000"
    text_col := "#3a1800", title_col := "#6a2800", arrow_col := "#c05800"
    shadow := false, phase_bands := false }

def corporateStyle : Style :=
  { name := "Corporate", bg_col := "#f7f8fb"
    boxstyle := "square,pad=0.04", box_lw := 1.5, arrow_lw := 1.5
    box_fg := "#eef0f8", box_edge := "#2a3460"
    inc_fg := "#dce4f5", inc_edge := "#1a2450", inc_lw := 2.5
    side_fg := "#e8eafa", side_edge := "#505a80"
    text_col := "#1a2040", title_col := "#1a2040", arrow_col := "#2a3460"
    shadow := true, phase_bands := true
    phase_cols := some ["#2a3460", "#1a5a8a", "#1a6a50", "#5a2a7a", "#1a6a38"] }

def purpleStyle : Style :=
  { name := "Royal Purple", bg_col := "#faf0ff"
    boxstyle := "round,pad=0.03", box_lw := 1.5, arrow_lw := 1.3
    box_fg := "#f5e8ff", box_edge := "#6a1a9a"
    inc_fg := "#e0c8ff", inc_edge := "#4a0a7a", inc_lw := 2.0
    side_fg := "#f8f0ff", side_edge := "#8a3ac0"
    text_col := "#2a0a40", title_col := "#3a0a60", arrow_col := "#6a1a9a"
    shadow := false, phase_bands := false }

def tealStyle : Style :=
  { name := "Ocean Teal", bg_col := "#f0fbfb"
    boxstyle := "round,pad=0.03", box_lw := 1.5, arrow_lw := 1.3
    box_fg := "#e0f5f5", box_edge := "#1a7a7a"
    inc_fg := "#c0eeee", inc_edge := "#0a6060", inc_lw := 2.0
    side_fg := "#eaf8f8", side_edge := "#2a9090"
    text_col := "#0a2828", title_col := "#0a4848", arrow_col := "#1a7a7a"
    shadow := false, phase_bands := false }

def orangeFlowStyle : Style :=
  { name := "Orange Flow", bg_col := "white"
    boxstyle := "square,pad=0.03", box_lw := 1.2, arrow_lw := 1.0
    box_fg := "#ffffff", box_edge := "#333333"
    inc_fg := "#fff8f0", inc_edge := "#e8960c", inc_lw := 2.0
    side_fg := "#ffffff", side_edge := "#333333"
    text_col := "#111111", title_col := "#e8960c", arrow_col := "#333333"
    shadow := false, phase_bands := true
    phase_cols := some ["#2196f3", "#2196f3", "#2196f3", "#2196f3", "#e8960c"]
    font_scale := some 1.0 }

/-- The registered style catalog `DIAGRAM_STYLES`, in source (insertion) order. -/
def DIAGRAM_STYLES : List (String × Style) :=
  [("classic", classicStyle), ("academic", academicStyle),
   ("colorful", colorfulStyle), ("minimal", minimalStyle),
   ("bold_navy", boldNavyStyle), ("shadowed", shadowedStyle),
   ("green", greenStyle), ("warm", warmStyle),
   ("corporate", corporateStyle), ("purple", purpleStyle),
   ("teal", tealStyle), ("orange_flow", orangeFlowStyle)]

/-- `DIAGRAM_STYLES.get(key)` — lookup of a registered style by key. -/
def lookupStyle (k : String) : Option Style :=
  (DIAGRAM_STYLES.find? (fun p => p.1 == k)).map (fun p => p.2)

/-- `DIAGRAM_STYLES.get(style_key, DIAGRAM_STYLES["classic"])`. -/
def resolveStyle (k : String) : Style :=
  (lookupStyle k).getD classicStyle

/-- `style_key = d.get("style", "classic")`. -/
def styleKeyOf (g : String → Option String) : String :=
  getv g "style" "classic"

/-- Stream identity accent color — Previous Studies. -/
def PREV_ACC : String := "#6c5ce7"
/-- Stream identity accent color — Other Methods. -/
def OTHER_ACC : String := "#e07b54"
/-- Accent color for Included / Total boxes. -/
def INC_ACC : String := "#00a878"
/-- Accent color for exclusion side boxes. -/
def SIDE_ACC : String := "#d63031"

def PX : ℚ := 2.0
def PW : ℚ := 3.2
def DX : ℚ := 8.5
def DW : ℚ := 4.8
def OX : ℚ := 16.8
def OW : ℚ := 3.5
def DEX : ℚ := 13.0
def DEW : ℚ := 3.5
def OEX : ℚ := 20.7
def OEW : ℚ := 2.5
def TX : ℚ := 11.0
def TW : ℚ := 6.5

def Y_ID : ℚ := 20.0
def Y_PRE : ℚ := 18.0
def Y_SC : ℚ := 15.8
def Y_SCX : ℚ := 14.0
def Y_SOU : ℚ := 12.0
def Y_NR : ℚ := 10.6
def Y_ASS : ℚ := 9.0
def Y_EX : ℚ := 7.3
def Y_INC : ℚ := 5.5
def Y_TOT : ℚ := 3.5
def Y_AN : ℚ := 1.3

/-- Standard single-line box height. -/
def H_STD : ℚ := 0.75

def AX1 : ℚ := 5.5
def AX2 : ℚ := 16.5
def AW : ℚ := 5.5

/-- Slot of the databases-identified box: line `• {name}: {count}` for index
`i`, contributed only when both `db{i}_name` and `db{i}_count` are non-blank
after trimming. -/
def dbSlot (g : String → Option String) (i : ℕ) : Option String :=
  let nm := getStrip1 g ("db" ++ toString i ++ "_name")
  let vl := getStrip1 g ("db" ++ toString i ++ "_count")
  if nm ≠ "" ∧ vl ≠ "" then some ("  • " ++ nm ++ ": " ++ vl) else none

/-- The per-database sub-lines of the identification box (`for i in range(1, 7)`). -/
def dbLines (g : String → Option String) : List String :=
  (List.range' 1 6).filterMap (dbSlot g)

/-- Slot of the screening-exclusion side box: `EX{i}: {reason} (n = {count})`. -/
def scExcSlot (g : String → Option String) (i : ℕ) : Option String :=
  let r := getStrip1 g ("sc_exc_code" ++ toString i)
  let v := getStrip1 g ("sc_exc_code" ++ toString i ++ "_n")
  if r ≠ "" ∧ v ≠ "" then some ("  EX" ++ toString i ++ ": " ++ r ++ " (n = " ++ v ++ ")") else none

/-- Coded exclusion reason lines of the screening side box (`range(1, 7)`). -/
def scxLines (g : String → Option String) : List String :=
  (List.range' 1 6).filterMap (scExcSlot g)

/-- Slot of the Database-stream eligibility-exclusion box, with legacy aliases
`exc_reason{i}` / `exc_reason{i}_n`. -/
def dbExcSlot (g : String → Option String) (i : ℕ) : Option String :=
  let r := getStrip2 g ("db_exc_reason" ++ toString i) ("exc_reason" ++ toString i)
  let v := getStrip2 g ("db_exc_reason" ++ toString i ++ "_n") ("exc_reason" ++ toString i ++ "_n")
  if r ≠ "" ∧ v ≠ "" then some ("  • " ++ r ++ ": " ++ v) else none

/-- Reason lines of the Database eligibility-exclusion box (`range(1, 7)`). -/
def dbExcLines (g : String → Option String) : List String :=
  (List.range' 1 6).filterMap (dbExcSlot g)

/-- Slot of the Other-Methods eligibility-exclusion box. -/
def otherExcSlot (g : String → Option String) (i : ℕ) : Option String :=
  let r := getStrip1 g ("other_exc_reason" ++ toString i)
  let v := getStrip1 g ("other_exc_reason" ++ toString i ++ "_n")
  if r ≠ "" ∧ v ≠ "" then some ("  • " ++ r ++ ": " ++ v) else none

/-- Reason lines of the Other-Methods eligibility-exclusion box (`range(1, 5)`). -/
def otherExcLines (g : String → Option String) : List String :=
  (List.range' 1 4).filterMap (otherExcSlot g)

/-- Every raw field value the render consumes, extracted exactly as the local
variables of `generate_diagram` are (one component per source variable). -/
structure Fields where
  prev_n : String
  db_id : String
  db_ls : List String
  other_id : String
  db_dup : String
  db_auto : String
  db_oth_ex : String
  db_sc : String
  sc_inc : String
  sc_exc : String
  conf_tot : String
  conflict_inc : String
  conflict_exc : String
  db_exc_sc : String
  scx_ls : List String
  db_sou : String
  other_sou : String
  db_nr : String
  other_nr : String
  db_ass : String
  other_ass : String
  db_exc_ft : String
  db_ex_ls : List String
  other_exc_ft : String
  other_exc_r1 : String
  other_ex_ls : List String
  db_inc : String
  other_inc : String
  total_n : String
  an1_txt : String
  an1_n : String
  an2_txt : String
  an2_n : String

/-- Read every field of the mapping the way `generate_diagram` does. -/
def readFields (g : String → Option String) : Fields where
  prev_n := getCount1 g "prev_included"
  db_id := getCount2 g "db_identified" "total_identified"
  db_ls := dbLines g
  other_id := getCount2 g "other_identified" "other_id_total"
  db_dup := getCount2 g "db_duplicates" "duplicates"
  db_auto := getStrip2 g "db_automation_exc" "auto_excluded"
  db_oth_ex := getStrip2 g "db_other_exc" "other_removed"
  db_sc := getCount2 g "db_screened" "screened"
  sc_inc := getStrip1 g "sc_included"
  sc_exc := getStrip1 g "sc_excluded"
  conf_tot := getStrip1 g "conflict_total"
  conflict_inc := getv g "conflict_inc" "0"
  conflict_exc := getv g "conflict_exc" "0"
  db_exc_sc := getCount2 g "db_exc_screened" "exc_screened"
  scx_ls := scxLines g
  db_sou := getCount2 g "db_sought" "retrieval"
  other_sou := getCount1 g "other_sought"
  db_nr := getCount2 g "db_not_retrieved" "not_retrieved"
  other_nr := orElse (getv g "other_not_retrieved" "") ""
  db_ass := getCount2 g "db_assessed" "eligibility"
  other_ass := getCount1 g "other_assessed"
  db_exc_ft := getCount2 g "db_exc_reasons_total" "exc_fulltext"
  db_ex_ls := dbExcLines g
  other_exc_ft := orElse (getv g "other_exc_reasons_total" "") ""
  other_exc_r1 := getStrip1 g "other_exc_reason1"
  other_ex_ls := otherExcLines g
  db_inc := getCount2 g "db_included" "included"
  other_inc := getCount1 g "other_included"
  total_n := getCount1 g "total_included"
  an1_txt := orElse (getStrip1 g "analysis_1_text") "Analysis Branch 1"
  an1_n := getStrip1 g "analysis_1_n"
  an2_txt := orElse (getStrip1 g "analysis_2_text") "Analysis Branch 2"
  an2_n := getStrip1 g "analysis_2_n"

/-- One text line of a box: text, bold flag, font size. -/
structure TextLine where
  text : String
  bold : Bool
  size : ℚ

/-- Identifies each `draw_box` call site of `generate_diagram`. -/
inductive BoxId where
  | prevTop | dbIdent | otherIdent | preRemoval | screened | screenedExc
  | dbSought | otherSought | dbNotRetr | otherNotRetr
  | dbAssessed | otherAssessed | dbElig | otherElig
  | prevInc | dbInc | otherInc | totalInc | branch1 | branch2
deriving DecidableEq, Repr, BEq

/-- A drawn box: placement, size, lines and style parameters. -/
structure Box where
  id : BoxId
  x : ℚ
  y : ℚ
  w : ℚ
  h : ℚ
  lines : List TextLine
  fc : String
  ec : String
  lw : ℚ
  tc : String
  accent : Option String

/-- Identifies each connector-emitting site of `generate_diagram`; elbow
connectors (`branch_right` and the merge joints) own both their segments. -/
inductive ConnId where
  | prevDown | dbIdSc | dbScSou | dbSouAss | dbAssInc
  | othIdSou | othSouAss | othAssInc
  | prevMergeH | prevMergeA | dbMergeA | dbMergeH | othMergeH | othMergeA
  | totAn1 | totAn2
  | elbowDbPre | elbowDbScx | elbowDbNr | elbowDbEx | elbowOthNr | elbowOthEx
deriving DecidableEq, Repr, BEq

/-- A connector segment is either a directed arrow (`darrow`) or an
undirected line (`hline`). -/
inductive ConnKind where
  | arrow | line
deriving DecidableEq, Repr, BEq

/-- One emitted connector segment. -/
structure Conn where
  cid : ConnId
  kind : ConnKind
  x1 : ℚ
  y1 : ℚ
  x2 : ℚ
  y2 : ℚ
  color : String
  lw : ℚ

/-- A stream column header banner. -/
structure Banner where
  hx : ℚ
  hw : ℚ
  label : String
  col : String

/-- A phase band pill (drawn only for styles with `phase_bands`). -/
structure Band where
  label : String
  cy : ℚ
  ph : ℚ
  col : String

/-- The full plan of one render: everything `generate_diagram` draws, in
drawing order, plus the canvas/title parameters. -/
structure Plan where
  bg : String
  banners : List Banner
  boxes : List Box
  conns : List Conn
  bands : List Band
  title_col : String
  title_fs : ℚ

/-- Per-phase main-box fill (`mfg` in the source): the `colorful` style's
`phase_box_cols` override, else the style's default box fill. -/
def mfg (st : Style) (i : ℕ) : String :=
  match st.phase_box_cols with
  | some l => match l.get? i with
              | some p => p.1
              | none => st.box_fg
  | none => st.box_fg

/-- Per-phase main-box edge color (`medge` in the source). -/
def medge (st : Style) (i : ℕ) : String :=
  match st.phase_box_cols with
  | some l => match l.get? i with
              | some p => p.2
              | none => st.box_edge
  | none => st.box_edge

/-- Uniform font size: `14.0 * st.get("font_scale", 1.0)`. -/
def UFSof (st : Style) : ℚ :=
  14.0 * st.font_scale.getD 1.0

/-- The adaptive-height rule `max(minH, 0.28 * lineCount + pad)` shared by
every variable-content box. -/
def adaptH (minH pad : ℚ) (n : ℕ) : ℚ :=
  max minH (0.28 * (n : ℚ) + pad)

/-- Rows of the databases-identified box: bold header plus per-database lines. -/
def dbIdRows (st : Style) (f : Fields) : List TextLine :=
  ⟨"Records identified from databases (n = " ++ f.db_id ++ "):", true, UFSof st⟩ ::
    f.db_ls.map (fun ln => ⟨ln, false, UFSof st⟩)

def hDbId (st : Style) (f : Fields) : ℚ :=
  adaptH H_STD 0.4 (dbIdRows st f).length

/-- Rows of the pre-screening removal side box. -/
def preRows (st : Style) (f : Fields) : List TextLine :=
  [⟨"Records removed before screening:", true, UFSof st⟩,
   ⟨"  • Duplicates (n = " ++ f.db_dup ++ ")", false, UFSof st⟩] ++
  (if f.db_auto ≠ "" then [⟨"  • Automation tools (n = " ++ f.db_auto ++ ")", false, UFSof st⟩] else []) ++
  (if f.db_oth_ex ≠ "" then [⟨"  • Other reasons (n = " ++ f.db_oth_ex ++ ")", false, UFSof st⟩] else [])

def hPre (st : Style) (f : Fields) : ℚ :=
  adaptH 0.9 0.3 (preRows st f).length

/-- Rows of the records-screened box, with optional conflict breakdown. -/
def scRows (st : Style) (f : Fields) : List TextLine :=
  [⟨"Records screened (n = " ++ f.db_sc ++ ")", true, UFSof st⟩] ++
  (if f.sc_inc ≠ "" then [⟨"  • Agreed — Included: " ++ f.sc_inc, false, UFSof st⟩] else []) ++
  (if f.sc_exc ≠ "" then [⟨"  • Agreed — Excluded: " ++ f.sc_exc, false, UFSof st⟩] else []) ++
  (if f.conf_tot ≠ "" ∧ f.conf_tot ≠ "0" then
    [⟨"  • Conflicts (n = " ++ f.conf_tot ++ "):", false, UFSof st⟩,
     ⟨"       ◦ Included after discussion: " ++ f.conflict_inc, false, UFSof st⟩,
     ⟨"       ◦ Excluded after discussion: " ++ f.conflict_exc, false, UFSof st⟩]
   else [])

def hSc (st : Style) (f : Fields) : ℚ :=
  adaptH H_STD 0.3 (scRows st f).length

/-- Rows of the screening-exclusion side box. -/
def scxRows (st : Style) (f : Fields) : List TextLine :=
  ⟨"Records excluded at screening (n = " ++ f.db_exc_sc ++ ")", true, UFSof st⟩ ::
    f.scx_ls.map (fun ln => ⟨ln, false, UFSof st⟩)

def hScx (st : Style) (f : Fields) : ℚ :=
  adaptH H_STD 0.3 (scxRows st f).length

/-- Rows of the Database-stream eligibility-exclusion side box. -/
def dbExRows (st : Style) (f : Fields) : List TextLine :=
  ⟨"Reports excluded (n = " ++ f.db_exc_ft ++ ")", true, UFSof st⟩ ::
    f.db_ex_ls.map (fun ln => ⟨ln, false, UFSof st⟩)

def hDbEx (st : Style) (f : Fields) : ℚ :=
  adaptH H_STD 0.3 (dbExRows st f).length

/-- Rows of the Other-Methods eligibility-exclusion side box; a blank total
renders as the placeholder `?`. -/
def otherExRows (st : Style) (f : Fields) : List TextLine :=
  ⟨"Reports excluded (n = " ++ orElse f.other_exc_ft "?" ++ ")", true, UFSof st⟩ ::
    f.other_ex_ls.map (fun ln => ⟨ln, false, UFSof st⟩)

def hOtherEx (st : Style) (f : Fields) : ℚ :=
  adaptH H_STD 0.3 (otherExRows st f).length

/-- Trigger of the Other-Methods eligibility-exclusion side box:
`other_exc_ft or d.get("other_exc_reason1", "").strip()`. -/
def otherEligCond (f : Fields) : Prop :=
  f.other_exc_ft ≠ "" ∨ f.other_exc_r1 ≠ ""

instance (f : Fields) : Decidable (otherEligCond f) := by
  unfold otherEligCond; infer_instance

/-- Analysis-branch label: free text plus optional `(n = …)` suffix line. -/
def anLabel (txt n : String) : String :=
  txt ++ (if n ≠ "" then "\n(n = " ++ n ++ ")" else "")

/-- All boxes of the diagram, in the source's drawing order.  The two
Other-Methods side boxes are emitted only when their trigger fields are
truthy; every other box is unconditional. -/
def planBoxes (st : Style) (f : Fields) : List Box :=
  let UFS := UFSof st
  let TC := st.text_col
  [⟨.prevTop, PX, Y_ID, PW, H_STD,
    [⟨"Studies from previous version", false, UFS⟩,
     ⟨"of review (n = " ++ f.prev_n ++ ")", false, UFS⟩],
    mfg st 0, medge st 0, st.box_lw, TC, some PREV_ACC⟩,
   ⟨.dbIdent, DX, Y_ID, DW, hDbId st f, dbIdRows st f,
    mfg st 0, medge st 0, st.box_lw, TC, some st.box_edge⟩,
   ⟨.otherIdent, OX, Y_ID, OW, H_STD,
    [⟨"Records from other methods", false, UFS⟩,
     ⟨"(n = " ++ f.other_id ++ ")", false, UFS⟩],
    mfg st 0, medge st 0, st.box_lw, TC, some OTHER_ACC⟩,
   ⟨.preRemoval, DEX, Y_PRE, DEW, hPre st f, preRows st f,
    st.side_fg, st.side_edge, st.box_lw, TC, some SIDE_ACC⟩,
   ⟨.screened, DX, Y_SC, DW, hSc st f, scRows st f,
    mfg st 1, medge st 1, st.box_lw, TC, some st.box_edge⟩,
   ⟨.screenedExc, DEX, Y_SCX, DEW, hScx st f, scxRows st f,
    st.side_fg, st.side_edge, st.box_lw, TC, some SIDE_ACC⟩,
   ⟨.dbSought, DX, Y_SOU, DW, H_STD,
    [⟨"Reports sought for retrieval (n = " ++ f.db_sou ++ ")", true, UFS⟩],
    mfg st 2, medge st 2, st.box_lw, TC, some st.box_edge⟩,
   ⟨.otherSought, OX, Y_SOU, OW, H_STD,
    [⟨"Reports sought (n = " ++ f.other_sou ++ ")", true, UFS⟩],
    mfg st 2, medge st 2, st.box_lw, TC, some OTHER_ACC⟩,
   ⟨.dbNotRetr, DEX, Y_NR, DEW, H_STD,
    [⟨"Reports not retrieved (n = " ++ f.db_nr ++ ")", false, UFS⟩],
    st.side_fg, st.side_edge, st.box_lw, TC, some SIDE_ACC⟩] ++
  (if f.other_nr ≠ "" then
    [⟨.otherNotRetr, OEX, Y_NR, OEW, H_STD,
      [⟨"Not retrieved (n = " ++ f.other_nr ++ ")", false, UFS⟩],
      st.side_fg, st.side_edge, st.box_lw, TC, some SIDE_ACC⟩]
   else []) ++
  [⟨.dbAssessed, DX, Y_ASS, DW, H_STD,
    [⟨"Reports assessed for eligibility (n = " ++ f.db_ass ++ ")", true, UFS⟩],
    mfg st 3, medge st 3, st.box_lw, TC, some st.box_edge⟩,
   ⟨.otherAssessed, OX, Y_ASS, OW, H_STD,
    [⟨"Assessed (n = " ++ f.other_ass ++ ")", true, UFS⟩],
    mfg st 3, medge st 3, st.box_lw, TC, some OTHER_ACC⟩,
   ⟨.dbElig, DEX, Y_EX, DEW, hDbEx st f, dbExRows st f,
    st.side_fg, st.side_edge, st.box_lw, TC, some SIDE_ACC⟩] ++
  (if otherEligCond f then
    [⟨.otherElig, OEX, Y_EX, OEW, hOtherEx st f, otherExRows st f,
      st.side_fg, st.side_edge, st.box_lw, TC, some SIDE_ACC⟩]
   else []) ++
  [⟨.prevInc, PX, Y_INC, PW, H_STD,
    [⟨"Previous studies included", false, UFS⟩,
     ⟨"(n = " ++ f.prev_n ++ ")", false, UFS⟩],
    st.inc_fg, st.inc_edge, st.inc_lw, TC, some INC_ACC⟩,
   ⟨.dbInc, DX, Y_INC, DW, H_STD,
    [⟨"Studies included from databases (n = " ++ f.db_inc ++ ")", true, UFS⟩],
    st.inc_fg, st.inc_edge, st.inc_lw, TC, some INC_ACC⟩,
   ⟨.otherInc, OX, Y_INC, OW, H_STD,
    [⟨"Studies from other methods (n = " ++ f.other_inc ++ ")", true, UFS⟩],
    st.inc_fg, st.inc_edge, st.inc_lw, TC, some INC_ACC⟩,
   ⟨.totalInc, TX, Y_TOT, TW, H_STD,
    [⟨"Total studies included in review (n = " ++ f.total_n ++ ")", true, UFS⟩],
    st.inc_fg, st.inc_edge, st.inc_lw + 0.5, TC, some INC_ACC⟩,
   ⟨.branch1, AX1, Y_AN, AW, H_STD,
    [⟨anLabel f.an1_txt f.an1_n, false, UFS⟩],
    mfg st 3, medge st 3, st.box_lw, TC, some INC_ACC⟩,
   ⟨.branch2, AX2, Y_AN, AW, H_STD,
    [⟨anLabel f.an2_txt f.an2_n, false, UFS⟩],
    mfg st 3, medge st 3, st.box_lw, TC, some INC_ACC⟩]

/-- `branch_right`: a horizontal elbow — line from the main box's right edge
to the midpoint, then an arrow into the side box's left edge. -/
def branchRight (cid : ConnId) (ac : String) (alw : ℚ)
    (mxr sxl main_cy side_cy : ℚ) : List Conn :=
  let mid := (mxr + sxl) / 2
  [⟨cid, .line, mxr, main_cy, mid, main_cy, ac, alw⟩,
   ⟨cid, .arrow, mid, main_cy, sxl, side_cy, ac, alw⟩]

/-- All connector segments, in the source's drawing order. -/
def planConns (st : Style) (f : Fields) : List Conn :=
  let ALW := max 2.0 (st.arrow_lw * 1.30)
  let AC := st.arrow_col
  let my_prv := Y_INC - H_STD / 2
  let my_oth := Y_INC - H_STD / 2
  let DB_LE := DX + DW / 2
  let DEX_LE := DEX - DEW / 2
  let OX_LE := OX + OW / 2
  let OEX_LE := OEX - OEW / 2
  [⟨.prevDown, .arrow, PX, Y_ID - H_STD / 2, PX, Y_INC + H_STD / 2, AC, ALW⟩,
   ⟨.dbIdSc, .arrow, DX, Y_ID - hDbId st f / 2, DX, Y_SC + hSc st f / 2, AC, ALW⟩,
   ⟨.dbScSou, .arrow, DX, Y_SC - hSc st f / 2, DX, Y_SOU + H_STD / 2, AC, ALW⟩,
   ⟨.dbSouAss, .arrow, DX, Y_SOU - H_STD / 2, DX, Y_ASS + H_STD / 2, AC, ALW⟩,
   ⟨.dbAssInc, .arrow, DX, Y_ASS - H_STD / 2, DX, Y_INC + H_STD / 2, AC, ALW⟩,
   ⟨.othIdSou, .arrow, OX, Y_ID - H_STD / 2, OX, Y_SOU + H_STD / 2, AC, ALW⟩,
   ⟨.othSouAss, .arrow, OX, Y_SOU - H_STD / 2, OX, Y_ASS + H_STD / 2, AC, ALW⟩,
   ⟨.othAssInc, .arrow, OX, Y_ASS - H_STD / 2, OX, Y_INC + H_STD / 2, AC, ALW⟩,
   ⟨.prevMergeH, .line, PX, my_prv, TX - TW / 2, my_prv, AC, ALW⟩,
   ⟨.prevMergeA, .arrow, TX - TW / 2, my_prv, TX, Y_TOT + H_STD / 2, AC, ALW⟩,
   ⟨.dbMergeA, .arrow, DX, Y_INC - H_STD / 2, DX, Y_TOT + H_STD / 2, AC, ALW⟩,
   ⟨.dbMergeH, .line, DX, Y_TOT + H_STD / 2,
    TX - TW / 2 + (DX - (TX - TW / 2)), Y_TOT + H_STD / 2, AC, ALW⟩,
   ⟨.othMergeH, .line, OX, my_oth, TX + TW / 2, my_oth, AC, ALW⟩,
   ⟨.othMergeA, .arrow, TX + TW / 2, my_oth, TX, Y_TOT + H_STD / 2, AC, ALW⟩,
   ⟨.totAn1, .arrow, TX, Y_TOT - H_STD / 2, AX1, Y_AN + H_STD / 2, AC, ALW⟩,
   ⟨.totAn2, .arrow, TX, Y_TOT - H_STD / 2, AX2, Y_AN + H_STD / 2, AC, ALW⟩] ++
  branchRight .elbowDbPre AC ALW DB_LE DEX_LE ((Y_ID + Y_SC) / 2) Y_PRE ++
  branchRight .elbowDbScx AC ALW DB_LE DEX_LE ((Y_SC + Y_SOU) / 2) Y_SCX ++
  branchRight .elbowDbNr AC ALW DB_LE DEX_LE ((Y_SOU + Y_ASS) / 2) Y_NR ++
  branchRight .elbowDbEx AC ALW DB_LE DEX_LE ((Y_ASS + Y_INC) / 2) Y_EX ++
  (if f.other_nr ≠ "" then
    branchRight .elbowOthNr AC ALW OX_LE OEX_LE ((Y_SOU + Y_ASS) / 2) Y_NR
   else []) ++
  (if otherEligCond f then
    branchRight .elbowOthEx AC ALW OX_LE OEX_LE ((Y_ASS + Y_INC) / 2) Y_EX
   else [])

/-- The three stream column header banners. -/
def planBanners (st : Style) : List Banner :=
  [⟨PX, PW, "PREVIOUS STUDIES", PREV_ACC⟩,
   ⟨DX, DW, "DATABASES / REGISTERS", st.box_edge⟩,
   ⟨OX, OW, "OTHER METHODS", OTHER_ACC⟩]

/-- The phase-band pills, drawn only when the style asks for them. -/
def planBands (st : Style) (f : Fields) : List Band :=
  if st.phase_bands then
    (List.zip
      [("IDENTIFICATION", Y_ID, hDbId st f), ("SCREENING", Y_SC, hSc st f),
       ("RETRIEVAL", Y_SOU, H_STD), ("ELIGIBILITY", Y_ASS, H_STD),
       ("INCLUDED", Y_TOT, H_STD)]
      (st.phase_cols.getD (List.replicate 5 "#1a3a5c"))).map
      (fun p => ⟨p.1.1, p.1.2.1, p.1.2.2, p.2⟩)
  else []

/-- Assemble the full plan from a resolved style and the read fields. -/
def render (st : Style) (f : Fields) : Plan where
  bg := st.bg_col
  banners := planBanners st
  boxes := planBoxes st f
  conns := planConns st f
  bands := planBands st f
  title_col := st.title_col
  title_fs := 16 * st.font_scale.getD 1.0

/-- The engine: `generate_diagram(d)` modelled to the plan level — style
resolution, field reading, formatting, geometry and connector routing.  The
final rasterization of the plan is the external encoder. -/
def generate_diagram (d : FieldMapping) : Plan :=
  render (resolveStyle (styleKeyOf (fget d))) (readFields (fget d))

/-- Auxiliary congruence: `getv` only consults the mapping at its key. -/
theorem getv_congr {g1 g2 : String → Option String} {k : String} (dflt : String)
    (h : g1 k = g2 k) : getv g1 k dflt = getv g2 k dflt := by
  unfold getv; rw [h]

theorem getCount1_congr {g1 g2 : String → Option String} {k : String}
    (h : g1 k = g2 k) : getCount1 g1 k = getCount1 g2 k := by
  unfold getCount1; rw [getv_congr _ h]

theorem getCount2_congr {g1 g2 : String → Option String} {k1 k2 : String}
    (h1 : g1 k1 = g2 k1) (h2 : g1 k2 = g2 k2) :
    getCount2 g1 k1 k2 = getCount2 g2 k1 k2 := by
  unfold getCount2 getv; rw [h1, h2]

theorem getStrip1_congr {g1 g2 : String → Option String} {k : String}
    (h : g1 k = g2 k) : getStrip1 g1 k = getStrip1 g2 k := by
  unfold getStrip1; rw [getv_congr _ h]

theorem getStrip2_congr {g1 g2 : String → Option String} {k1 k2 : String}
    (h1 : g1 k1 = g2 k1) (h2 : g1 k2 = g2 k2) :
    getStrip2 g1 k1 k2 = getStrip2 g2 k1 k2 := by
  unfold getStrip2 getv; rw [h1, h2]

theorem range_one_six : List.range' 1 6 = [1, 2, 3, 4, 5, 6] := rfl

theorem range_one_four : List.range' 1 4 = [1, 2, 3, 4] := rfl

theorem dbLines_congr {g1 g2 : String → Option String}
    (h : ∀ k, k ≠ "style" → g1 k = g2 k) : dbLines g1 = dbLines g2 := by
  unfold dbLines
  refine List.filterMap_congr ?_
  intro i hi
  rw [range_one_six] at hi
  fin_cases hi <;>
    (unfold dbSlot; rw [getStrip1_congr (h _ (by decide)), getStrip1_congr (h _ (by decide))])

theorem scxLines_congr {g1 g2 : String → Option String}
    (h : ∀ k, k ≠ "style" → g1 k = g2 k) : scxLines g1 = scxLines g2 := by
  unfold scxLines
  refine List.filterMap_congr ?_
  intro i hi
  rw [range_one_six] at hi
  fin_cases hi <;>
    (unfold scExcSlot; rw [getStrip1_congr (h _ (by decide)), getStrip1_congr (h _ (by decide))])

theorem dbExcLines_congr {g1 g2 : String → Option String}
    (h : ∀ k, k ≠ "style" → g1 k = g2 k) : dbExcLines g1 = dbExcLines g2 := by
  unfold dbExcLines
  refine List.filterMap_congr ?_
  intro i hi
  rw [range_one_six] at hi
  fin_cases hi <;>
    (unfold dbExcSlot;
     rw [getStrip2_congr (h _ (by decide)) (h _ (by decide)),
         getStrip2_congr (h _ (by decide)) (h _ (by decide))])

theorem otherExcLines_congr {g1 g2 : String → Option String}
    (h : ∀ k, k ≠ "style" → g1 k = g2 k) : otherExcLines g1 = otherExcLines g2 := by
  unfold otherExcLines
  refine List.filterMap_congr ?_
  intro i hi
  rw [range_one_four] at hi
  fin_cases hi <;>
    (unfold otherExcSlot; rw [getStrip1_congr (h _ (by decide)), getStrip1_congr (h _ (by decide))])

/-- Field reading never consults the `style` key, so any two mappings that
agree away from `style` read to identical `Fields`. -/
theorem readFields_congr {g1 g2 : String → Option String}
    (h : ∀ k, k ≠ "style" → g1 k = g2 k) : readFields g1 = readFields g2 := by
  unfold readFields
  congr 1
  all_goals first
    | exact getCount1_congr (h _ (by decide))
    | exact getCount2_congr (h _ (by decide)) (h _ (by decide))
    | exact getStrip1_congr (h _ (by decide))
    | exact getStrip2_congr (h _ (by decide)) (h _ (by decide))
    | exact getv_congr _ (h _ (by decide))
    | exact congrArg (fun s => orElse s "") (getv_congr _ (h _ (by decide)))
    | exact congrArg (fun s => orElse s "Analysis Branch 1") (getStrip1_congr (h _ (by decide)))
    | exact congrArg (fun s => orElse s "Analysis Branch 2") (getStrip1_congr (h _ (by decide)))
    | exact dbLines_congr h
    | exact scxLines_congr h
    | exact dbExcLines_congr h
    | exact otherExcLines_congr h

/-- Claim C1: for every field mapping and style key, two invocations of
`generate_diagram` on the same (mapping, style key) pair produce identical
output — the embedded pipeline is a pure function of the mapping's lookup
behaviour (which carries the style key), with no randomness and no layout
feedback loops, so extensionally equal mappings give equal plans. -/
theorem generate_diagram_deterministic (d1 d2 : FieldMapping)
    (h : ∀ k, fget d1 k = fget d2 k) : generate_diagram d1 = generate_diagram d2 := by
  unfold generate_diagram
  rw [funext h]

/-- Witness for C1 at concrete inputs: two distinct association lists with the
same lookup behaviour (the second binding of a duplicated key is dead) render
the same plan. -/
theorem generate_diagram_deterministic_witness :
    generate_diagram [("db_screened", "10")] =
      generate_diagram [("db_screened", "10"), ("db_screened", "999")] :=
  generate_diagram_deterministic _ _ (by
    intro k
    unfold fget
    cases h : ("db_screened" == k) <;> simp [List.find?, h])

/-- Overriding a key at the front of the mapping leaves every other lookup
unchanged. -/
theorem fget_cons_ne (x v : String) (d : FieldMapping) (k : String) (hk : k ≠ x) :
    fget ((x, v) :: d) k = fget d k := by
  have hb : ((x == k) : Bool) = false := beq_eq_false_iff_ne.mpr (Ne.symm hk)
  unfold fget
  simp [List.find?, hb]

/-- Claim C2: an unregistered style key — or an absent style field — resolves
to the default profile `classic`, and the rest of the render is unaffected:
the output equals that of explicitly requesting `"classic"`. -/
theorem style_fallback (d : FieldMapping) (k : String) (hk : lookupStyle k = none) :
    generate_diagram (("style", k) :: d) = generate_diagram (("style", "classic") :: d) ∧
    (fget d "style" = none →
      generate_diagram d = generate_diagram (("style", "classic") :: d)) := by
  have hfields : ∀ x : String,
      readFields (fget (("style", x) :: d)) = readFields (fget d) := by
    intro x
    exact readFields_congr (fun k' hk' => fget_cons_ne "style" x d k' hk')
  have hkey : ∀ x : String, styleKeyOf (fget (("style", x) :: d)) = x := by
    intro x; rfl
  constructor
  · unfold generate_diagram
    rw [hkey k, hkey "classic", hfields k, hfields "classic"]
    have : resolveStyle k = resolveStyle "classic" := by
      unfold resolveStyle
      rw [hk]
      rfl
    rw [this]
  · intro hstyle
    unfold generate_diagram
    rw [hkey "classic", hfields "classic"]
    have : styleKeyOf (fget d) = "classic" := by
      unfold styleKeyOf getv
      rw [hstyle]
      rfl
    rw [this]

/-- Witness for C2: the unregistered key `"neon"` and the empty mapping both
render exactly as an explicit `"classic"` request. -/
theorem style_fallback_witness :
    generate_diagram [("style", "neon")] = generate_diagram [("style", "classic")] ∧
    generate_diagram [] = generate_diagram [("style", "classic")] :=
  ⟨(style_fallback [] "neon" rfl).1, (style_fallback [] "neon" rfl).2 rfl⟩

/-- The eleven pipeline phases of the diagram, one canonical y-level each. -/
inductive Phase where
  | identification | preScreeningRemoval | screening | screeningExclusion
  | retrieval | notRetrieved | eligibility | eligibilityExclusion
  | includedPerStream | totalIncluded | analysisBranch
deriving DecidableEq, Repr

/-- The phase each box belongs to. -/
def phaseOf : BoxId → Phase
  | .prevTop | .dbIdent | .otherIdent => .identification
  | .preRemoval => .preScreeningRemoval
  | .screened => .screening
  | .screenedExc => .screeningExclusion
  | .dbSought | .otherSought => .retrieval
  | .dbNotRetr | .otherNotRetr => .notRetrieved
  | .dbAssessed | .otherAssessed => .eligibility
  | .dbElig | .otherElig => .eligibilityExclusion
  | .prevInc | .dbInc | .otherInc => .includedPerStream
  | .totalInc => .totalIncluded
  | .branch1 | .branch2 => .analysisBranch

/-- The fixed canonical y-level of each phase. -/
def canonicalY : Phase → ℚ
  | .identification => Y_ID
  | .preScreeningRemoval => Y_PRE
  | .screening => Y_SC
  | .screeningExclusion => Y_SCX
  | .retrieval => Y_SOU
  | .notRetrieved => Y_NR
  | .eligibility => Y_ASS
  | .eligibilityExclusion => Y_EX
  | .includedPerStream => Y_INC
  | .totalIncluded => Y_TOT
  | .analysisBranch => Y_AN

theorem render_boxes (st : Style) (f : Fields) : (render st f).boxes = planBoxes st f := rfl

theorem render_conns (st : Style) (f : Fields) : (render st f).conns = planConns st f := rfl

/-- Claim C7: for every style, every field set and hence every mapping, each
drawn box sits exactly at its phase's fixed canonical y-level, so boxes of the
same pipeline phase are y-aligned across all streams that implement it; the
eleven canonical levels strictly decrease from identification to the analysis
branches. -/
theorem row_alignment :
    (∀ (st : Style) (f : Fields),
      List.Forall (fun b => b.y = canonicalY (phaseOf b.id)) (render st f).boxes) ∧
    (∀ d : FieldMapping,
      List.Forall (fun b => b.y = canonicalY (phaseOf b.id)) (generate_diagram d).boxes) ∧
    (Y_ID > Y_PRE ∧ Y_PRE > Y_SC ∧ Y_SC > Y_SCX ∧ Y_SCX > Y_SOU ∧ Y_SOU > Y_NR ∧
     Y_NR > Y_ASS ∧ Y_ASS > Y_EX ∧ Y_EX > Y_INC ∧ Y_INC > Y_TOT ∧ Y_TOT > Y_AN) := by
  have hmain : ∀ (st : Style) (f : Fields),
      List.Forall (fun b => b.y = canonicalY (phaseOf b.id)) (render st f).boxes := by
    intro st f
    rw [render_boxes]
    unfold planBoxes
    split_ifs <;> simp [List.Forall, phaseOf, canonicalY]
  refine ⟨hmain, fun d => hmain _ _, ?_⟩
  norm_num [Y_ID, Y_PRE, Y_SC, Y_SCX, Y_SOU, Y_NR, Y_ASS, Y_EX, Y_INC, Y_TOT, Y_AN]

/-- The boxes whose line count can grow with the input. -/
def growing : BoxId → Bool
  | .dbIdent | .preRemoval | .screened | .screenedExc | .dbElig | .otherElig => true
  | _ => false

/-- Standard minimum height of each growing box (`0.9` for the pre-screening
removal box, the standard single-line height for the rest). -/
def minHOf : BoxId → ℚ
  | .preRemoval => 0.9
  | _ => H_STD

/-- Vertical padding of each growing box (`0.4` for the identification box,
`0.3` for the rest). -/
def padOf : BoxId → ℚ
  | .dbIdent => 0.4
  | _ => 0.3

/-- Claim C6: every growing box's height is computed by the adaptive rule
`max(standardHeight, 0.28 × lineCount + verticalPadding)` with its box
constants; the rule is non-decreasing in the line count and its value never
falls below the standard single-line minimum `H_STD`. -/
theorem adaptive_height_rule :
    (∀ (st : Style) (f : Fields),
      List.Forall
        (fun b => growing b.id = true →
          b.h = adaptH (minHOf b.id) (padOf b.id) b.lines.length)
        (render st f).boxes) ∧
    (∀ (minH pad : ℚ) (n m : ℕ), n ≤ m →
      adaptH minH pad n ≤ adaptH minH pad m) ∧
    (∀ (pad : ℚ) (n : ℕ) (b : BoxId), H_STD ≤ adaptH (minHOf b) pad n) := by
  refine ⟨?_, ?_, ?_⟩
  · intro st f
    rw [render_boxes]
    unfold planBoxes
    split_ifs <;>
      simp [List.Forall, growing, minHOf, padOf, hDbId, hPre, hSc, hScx, hDbEx, hOtherEx]
  · intro minH pad n m hnm
    unfold adaptH
    refine max_le_max le_rfl (add_le_add_right ?_ pad)
    have : (n : ℚ) ≤ (m : ℚ) := Nat.cast_le.mpr hnm
    nlinarith
  · intro pad n b
    refine le_trans ?_ (le_max_left _ _)
    unfold minHOf H_STD
    cases b <;> norm_num

/-- Witness for C6 at concrete inputs: the adaptive rule is monotone from 2 to
5 lines at the standard constants. -/
theorem adaptive_height_rule_witness :
    (2 ≤ 5) ∧ adaptH H_STD 0.3 2 ≤ adaptH H_STD 0.3 5 :=
  ⟨by decide, adaptive_height_rule.2.1 H_STD 0.3 2 5 (by decide)⟩

/-- Claim C5: an indexed source or exclusion-reason slot contributes a line
only if both its name/reason field and its count field are non-blank after
trimming; partial slots contribute nothing; the lines are an order-preserving
`filterMap` over the fixed slot ranges (6 source slots, 6 screening-code
slots, 6 Database eligibility-exclusion slots, 4 Other-Methods slots), so at
most that many lines survive. -/
theorem slot_skip_correctness :
    (∀ (g : String → Option String) (i : ℕ),
      getStrip1 g ("db" ++ toString i ++ "_name") = "" ∨
        getStrip1 g ("db" ++ toString i ++ "_count") = "" →
      dbSlot g i = none) ∧
    (∀ g, dbLines g = (List.range' 1 6).filterMap (dbSlot g)) ∧
    (∀ (g : String → Option String) (i : ℕ),
      getStrip2 g ("db_exc_reason" ++ toString i) ("exc_reason" ++ toString i) = "" ∨
        getStrip2 g ("db_exc_reason" ++ toString i ++ "_n")
          ("exc_reason" ++ toString i ++ "_n") = "" →
      dbExcSlot g i = none) ∧
    (∀ g, dbExcLines g = (List.range' 1 6).filterMap (dbExcSlot g)) ∧
    (∀ (g : String → Option String) (i : ℕ),
      getStrip1 g ("other_exc_reason" ++ toString i) = "" ∨
        getStrip1 g ("other_exc_reason" ++ toString i ++ "_n") = "" →
      otherExcSlot g i = none) ∧
    (∀ g, otherExcLines g = (List.range' 1 4).filterMap (otherExcSlot g)) ∧
    (∀ (g : String → Option String) (i : ℕ),
      getStrip1 g ("sc_exc_code" ++ toString i) = "" ∨
        getStrip1 g ("sc_exc_code" ++ toString i ++ "_n") = "" →
      scExcSlot g i = none) ∧
    (∀ g, scxLines g = (List.range' 1 6).filterMap (scExcSlot g)) ∧
    (∀ g, (dbLines g).length ≤ 6 ∧ (dbExcLines g).length ≤ 6 ∧
      (otherExcLines g).length ≤ 4 ∧ (scxLines g).length ≤ 6) := by
  refine ⟨?_, fun g => rfl, ?_, fun g => rfl, ?_, fun g => rfl, ?_, fun g => rfl, ?_⟩
  · intro g i h
    unfold dbSlot
    rcases h with h | h <;> simp [h]
  · intro g i h
    unfold dbExcSlot
    rcases h with h | h <;> simp [h]
  · intro g i h
    unfold otherExcSlot
    rcases h with h | h <;> simp [h]
  · intro g i h
    unfold scExcSlot
    rcases h with h | h <;> simp [h]
  · intro g
    refine ⟨?_, ?_, ?_, ?_⟩ <;>
      first
        | exact le_trans (List.length_filterMap_le _ _) (by rw [range_one_six]; decide)
        | exact le_trans (List.length_filterMap_le _ _) (by rw [range_one_four]; decide)

/-- Witness for C5: a slot with a name but a blank count contributes no line. -/
theorem slot_skip_correctness_witness :
    dbSlot (fget [("db1_name", "PubMed")]) 1 = none :=
  slot_skip_correctness.1 _ 1 (Or.inr (by decide))

theorem getCount2_primary_absent {g : String → Option String} (k1 k2 : String)
    (h : g k1 = none) : getCount2 g k1 k2 = getCount1 g k2 := by
  unfold getCount2 getCount1 getv
  rw [h]
  rfl

theorem getCount2_primary_blank {g : String → Option String} (k1 k2 : String)
    (h : g k1 = some "") : getCount2 g k1 k2 = "0" := by
  unfold getCount2 getv orElse
  rw [h]
  rfl

theorem getStrip2_primary_absent {g : String → Option String} (k1 k2 : String)
    (h : g k1 = none) : getStrip2 g k1 k2 = getStrip1 g k2 := by
  unfold getStrip2 getStrip1 getv
  rw [h]
  rfl

theorem getStrip2_primary_blank {g : String → Option String} (k1 k2 : String)
    (h : g k1 = some "") : getStrip2 g k1 k2 = "" := by
  unfold getStrip2 getv
  rw [h]
  rfl

/-- Claim C10: each primary count key falls back to its legacy alias only when
the primary key is entirely absent from the mapping; a primary key present
with an empty value yields the final `"0"` default (for counts) or an empty
line-skip (for reason slots), never the alias. -/
theorem alias_fallback (d : FieldMapping) :
    ((fget d "db_identified" = none →
        (readFields (fget d)).db_id = getCount1 (fget d) "total_identified") ∧
      (fget d "db_identified" = some "" → (readFields (fget d)).db_id = "0")) ∧
    ((fget d "db_duplicates" = none →
        (readFields (fget d)).db_dup = getCount1 (fget d) "duplicates") ∧
      (fget d "db_duplicates" = some "" → (readFields (fget d)).db_dup = "0")) ∧
    ((fget d "db_screened" = none →
        (readFields (fget d)).db_sc = getCount1 (fget d) "screened") ∧
      (fget d "db_screened" = some "" → (readFields (fget d)).db_sc = "0")) ∧
    ((fget d "db_sought" = none →
        (readFields (fget d)).db_sou = getCount1 (fget d) "retrieval") ∧
      (fget d "db_sought" = some "" → (readFields (fget d)).db_sou = "0")) ∧
    ((fget d "db_assessed" = none →
        (readFields (fget d)).db_ass = getCount1 (fget d) "eligibility") ∧
      (fget d "db_assessed" = some "" → (readFields (fget d)).db_ass = "0")) ∧
    ((fget d "db_not_retrieved" = none →
        (readFields (fget d)).db_nr = getCount1 (fget d) "not_retrieved") ∧
      (fget d "db_not_retrieved" = some "" → (readFields (fget d)).db_nr = "0")) ∧
    ((fget d "db_included" = none →
        (readFields (fget d)).db_inc = getCount1 (fget d) "included") ∧
      (fget d "db_included" = some "" → (readFields (fget d)).db_inc = "0")) ∧
    (∀ i : ℕ,
      (fget d ("db_exc_reason" ++ toString i) = none →
        getStrip2 (fget d) ("db_exc_reason" ++ toString i) ("exc_reason" ++ toString i) =
          getStrip1 (fget d) ("exc_reason" ++ toString i)) ∧
      (fget d ("db_exc_reason" ++ toString i ++ "_n") = none →
        getStrip2 (fget d) ("db_exc_reason" ++ toString i ++ "_n")
            ("exc_reason" ++ toString i ++ "_n") =
          getStrip1 (fget d) ("exc_reason" ++ toString i ++ "_n")) ∧
      (fget d ("db_exc_reason" ++ toString i) = some "" → dbExcSlot (fget d) i = none)) := by
  refine ⟨⟨?_, ?_⟩, ⟨?_, ?_⟩, ⟨?_, ?_⟩, ⟨?_, ?_⟩, ⟨?_, ?_⟩, ⟨?_, ?_⟩, ⟨?_, ?_⟩, ?_⟩
  all_goals try exact fun h => getCount2_primary_absent _ _ h
  all_goals try exact fun h => getCount2_primary_blank _ _ h
  intro i
  refine ⟨fun h => getStrip2_primary_absent _ _ h,
          fun h => getStrip2_primary_absent _ _ h, fun h => ?_⟩
  unfold dbExcSlot
  rw [getStrip2_primary_blank _ _ h]
  simp

/-- Witness for C10: with only the alias set, the primary count reads through
the alias and yields `99`; with the primary present but blank, the alias is
ignored and the count defaults to `0`. -/
theorem alias_fallback_witness :
    (readFields (fget [("total_identified", "99")])).db_id =
        getCount1 (fget [("total_identified", "99")]) "total_identified" ∧
      getCount1 (fget [("total_identified", "99")]) "total_identified" = "99" ∧
      (readFields (fget [("db_identified", ""), ("total_identified", "99")])).db_id = "0" :=
  ⟨(alias_fallback [("total_identified", "99")]).1.1 rfl, rfl,
   (alias_fallback [("db_identified", ""), ("total_identified", "99")]).1.2 rfl⟩

/-- Claim C3 counterexample: on the empty mapping both triggering fields of
the Database not-retrieved side box (`db_not_retrieved` / `not_retrieved`)
are absent, yet that side box — and the pre-screening removal side box — are
drawn: blank triggers do not suppress the Database-stream side boxes. -/
theorem db_side_box_drawn_when_blank :
    fget [] "db_not_retrieved" = none ∧ fget [] "not_retrieved" = none ∧
    ((generate_diagram []).boxes.map Box.id).count BoxId.dbNotRetr = 1 ∧
    ((generate_diagram []).boxes.map Box.id).count BoxId.preRemoval = 1 :=
  ⟨rfl, rfl, by decide, by decide⟩

/-- Claim C3 (amended): only the Other-Methods stream's side-exclusion boxes
are conditional on their triggering fields — the not-retrieved box appears
exactly when `other_not_retrieved` is truthy and the exclusions box exactly
when its trigger condition holds — while the four Database-stream side boxes
are drawn unconditionally, for every field mapping. -/
theorem side_box_conditionality (d : FieldMapping) :
    ((generate_diagram d).boxes.map Box.id).count BoxId.otherNotRetr =
      (if (readFields (fget d)).other_nr = "" then 0 else 1) ∧
    ((generate_diagram d).boxes.map Box.id).count BoxId.otherElig =
      (if otherEligCond (readFields (fget d)) then 1 else 0) ∧
    ((generate_diagram d).boxes.map Box.id).count BoxId.preRemoval = 1 ∧
    ((generate_diagram d).boxes.map Box.id).count BoxId.screenedExc = 1 ∧
    ((generate_diagram d).boxes.map Box.id).count BoxId.dbNotRetr = 1 ∧
    ((generate_diagram d).boxes.map Box.id).count BoxId.dbElig = 1 := by
  unfold generate_diagram
  rw [render_boxes]
  unfold planBoxes
  by_cases h1 : (readFields (fget d)).other_nr = "" <;>
    by_cases h2 : otherEligCond (readFields (fget d)) <;>
      simp [h1, h2, List.count_cons, List.count_append] <;> decide

/-- Claim C4 counterexample: rendering the empty mapping does not omit the
Previous-stream boxes — both the identification-row box and the included box
of the Previous Studies stream are drawn (with `n = 0`). -/
theorem prev_box_present_on_empty_mapping :
    ((generate_diagram []).boxes.map Box.id).count BoxId.prevTop = 1 ∧
    ((generate_diagram []).boxes.map Box.id).count BoxId.prevInc = 1 :=
  ⟨by decide, by decide⟩

/-- Claim C4 (amended): the empty mapping with the default style renders
exactly these boxes with exactly these lines — every numeric line reads
`(n = 0)`, the two conditional Other-Methods side boxes are absent, the
analysis branches carry the generic placeholder labels with no count suffix,
and the Previous-stream boxes are present (showing `n = 0`), as is every
Database-stream side box. -/
theorem empty_mapping_scenario :
    (generate_diagram []).boxes.map (fun b => (b.id, b.lines.map TextLine.text)) =
      [(.prevTop, ["Studies from previous version", "of review (n = 0)"]),
       (.dbIdent, ["Records identified from databases (n = 0):"]),
       (.otherIdent, ["Records from other methods", "(n = 0)"]),
       (.preRemoval, ["Records removed before screening:", "  • Duplicates (n = 0)"]),
       (.screened, ["Records screened (n = 0)"]),
       (.screenedExc, ["Records excluded at screening (n = 0)"]),
       (.dbSought, ["Reports sought for retrieval (n = 0)"]),
       (.otherSought, ["Reports sought (n = 0)"]),
       (.dbNotRetr, ["Reports not retrieved (n = 0)"]),
       (.dbAssessed, ["Reports assessed for eligibility (n = 0)"]),
       (.otherAssessed, ["Assessed (n = 0)"]),
       (.dbElig, ["Reports excluded (n = 0)"]),
       (.prevInc, ["Previous studies included", "(n = 0)"]),
       (.dbInc, ["Studies included from databases (n = 0)"]),
       (.otherInc, ["Studies from other methods (n = 0)"]),
       (.totalInc, ["Total studies included in review (n = 0)"]),
       (.branch1, ["Analysis Branch 1"]),
       (.branch2, ["Analysis Branch 2"])] ∧
    (generate_diagram []).conns.countP (fun c => c.cid == ConnId.elbowOthNr) = 0 ∧
    (generate_diagram []).conns.countP (fun c => c.cid == ConnId.elbowOthEx) = 0 :=
  ⟨by rfl, by rfl, by rfl⟩

/-- Claim C8 counterexample: with `other_not_retrieved` absent and
`other_exc_reason1` blank after trimming, a non-blank
`other_exc_reasons_total` alone still draws the Other-Methods exclusions side
box and routes an elbow connector (two segments) to its side column. -/
theorem other_exc_total_triggers_side_box :
    fget [("other_exc_reasons_total", "5")] "other_not_retrieved" = none ∧
    getStrip1 (fget [("other_exc_reasons_total", "5")]) "other_exc_reason1" = "" ∧
    ((generate_diagram [("other_exc_reasons_total", "5")]).boxes.map Box.id).count
      BoxId.otherElig = 1 ∧
    (generate_diagram [("other_exc_reasons_total", "5")]).conns.countP
      (fun c => c.cid == ConnId.elbowOthEx) = 2 :=
  ⟨rfl, rfl, by decide, by rfl⟩

set_option maxHeartbeats 1000000 in
/-- Claim C8 (amended): the Other-Methods not-retrieved box and its elbow
exist exactly when `other_not_retrieved` is truthy, and the exclusions box
and its elbow exactly when `other_exc_reasons_total` is truthy or
`other_exc_reason1` is non-blank after trimming; when all three are blank no
box or connector touches those side columns, and a truthy
`other_not_retrieved` adds exactly one box (at the canonical `Y_NR` level)
and one two-segment elbow connector whose arrow ends at `Y_NR`. -/
theorem other_side_box_counts (d : FieldMapping) :
    ((generate_diagram d).boxes.map Box.id).count BoxId.otherNotRetr =
      (if (readFields (fget d)).other_nr = "" then 0 else 1) ∧
    ((generate_diagram d).boxes.map Box.id).count BoxId.otherElig =
      (if otherEligCond (readFields (fget d)) then 1 else 0) ∧
    (generate_diagram d).conns.countP (fun c => c.cid == ConnId.elbowOthNr) =
      (if (readFields (fget d)).other_nr = "" then 0 else 2) ∧
    (generate_diagram d).conns.countP (fun c => c.cid == ConnId.elbowOthEx) =
      (if otherEligCond (readFields (fget d)) then 2 else 0) ∧
    (generate_diagram d).boxes.length =
      18 + (if (readFields (fget d)).other_nr = "" then 0 else 1) +
        (if otherEligCond (readFields (fget d)) then 1 else 0) ∧
    (generate_diagram d).conns.length =
      24 + (if (readFields (fget d)).other_nr = "" then 0 else 2) +
        (if otherEligCond (readFields (fget d)) then 2 else 0) ∧
    ((generate_diagram d).boxes.filter (fun b => b.id == BoxId.otherNotRetr)).map Box.y =
      (if (readFields (fget d)).other_nr = "" then [] else [Y_NR]) ∧
    ((generate_diagram d).conns.filter
        (fun c => c.cid == ConnId.elbowOthNr && c.kind == ConnKind.arrow)).map Conn.y2 =
      (if (readFields (fget d)).other_nr = "" then [] else [Y_NR]) := by
  unfold generate_diagram
  rw [render_boxes, render_conns]
  unfold planBoxes planConns branchRight
  by_cases h1 : (readFields (fget d)).other_nr = "" <;>
    by_cases h2 : otherEligCond (readFields (fget d)) <;>
      simp +decide [h1, h2, List.count_cons, List.count_append, List.countP_cons,
        List.countP_append, List.filter_cons, List.filter_append,
        List.length_append]

/-- Claim C9 counterexample: with a non-blank first exclusion reason but a
missing `other_exc_reasons_total`, the Other-Methods exclusions box renders
its blank total as the placeholder `?`, not as the literal zero count. -/
theorem blank_other_exc_total_renders_question_mark :
    fget [("other_exc_reason1", "Design"), ("other_exc_reason1_n", "3")]
        "other_exc_reasons_total" = none ∧
    ((generate_diagram [("other_exc_reason1", "Design"), ("other_exc_reason1_n", "3")]).boxes.filter
        (fun b => b.id == BoxId.otherElig)).map (fun b => b.lines.map TextLine.text) =
      [["Reports excluded (n = ?)", "  • Design: 3"]] :=
  ⟨rfl, by rfl⟩

/-- The field's value in the mapping is either missing or the empty string. -/
def blankOrNone (d : FieldMapping) (k : String) : Prop :=
  fget d k = none ∨ fget d k = some ""

theorem getCount1_blank {g : String → Option String} {k : String}
    (h : g k = none ∨ g k = some "") : getCount1 g k = "0" := by
  unfold getCount1 getv orElse
  rcases h with h | h <;> rw [h] <;> rfl

theorem getCount2_blank {g : String → Option String} {k1 k2 : String}
    (h1 : g k1 = none ∨ g k1 = some "") (h2 : g k2 = none ∨ g k2 = some "") :
    getCount2 g k1 k2 = "0" := by
  unfold getCount2 getv orElse
  rcases h1 with h1 | h1
  · rcases h2 with h2 | h2 <;> rw [h1, h2] <;> rfl
  · rw [h1]; rfl

set_option maxHeartbeats 1000000 in
/-- Claim C9 (amended): every numeric count whose keys are missing or blank in
the mapping is read as the literal `"0"` and hence rendered as a `(n = 0)`
line — for every count of every stream — with two exceptions inherent to the
code: the Other-Methods exclusions total renders the placeholder `?` when
blank, and the conflict-discussion counts are echoed verbatim (so a
present-but-blank `conflict_inc`/`conflict_exc` renders empty text). -/
theorem missing_counts_render_zero (d : FieldMapping) :
    (blankOrNone d "prev_included" → (readFields (fget d)).prev_n = "0") ∧
    (blankOrNone d "db_identified" → blankOrNone d "total_identified" →
      (readFields (fget d)).db_id = "0") ∧
    (blankOrNone d "other_identified" → blankOrNone d "other_id_total" →
      (readFields (fget d)).other_id = "0") ∧
    (blankOrNone d "db_duplicates" → blankOrNone d "duplicates" →
      (readFields (fget d)).db_dup = "0") ∧
    (blankOrNone d "db_screened" → blankOrNone d "screened" →
      (readFields (fget d)).db_sc = "0") ∧
    (blankOrNone d "db_exc_screened" → blankOrNone d "exc_screened" →
      (readFields (fget d)).db_exc_sc = "0") ∧
    (blankOrNone d "db_sought" → blankOrNone d "retrieval" →
      (readFields (fget d)).db_sou = "0") ∧
    (blankOrNone d "other_sought" → (readFields (fget d)).other_sou = "0") ∧
    (blankOrNone d "db_not_retrieved" → blankOrNone d "not_retrieved" →
      (readFields (fget d)).db_nr = "0") ∧
    (blankOrNone d "db_assessed" → blankOrNone d "eligibility" →
      (readFields (fget d)).db_ass = "0") ∧
    (blankOrNone d "other_assessed" → (readFields (fget d)).other_ass = "0") ∧
    (blankOrNone d "db_exc_reasons_total" → blankOrNone d "exc_fulltext" →
      (readFields (fget d)).db_exc_ft = "0") ∧
    (blankOrNone d "db_included" → blankOrNone d "included" →
      (readFields (fget d)).db_inc = "0") ∧
    (blankOrNone d "other_included" → (readFields (fget d)).other_inc = "0") ∧
    (blankOrNone d "total_included" → (readFields (fget d)).total_n = "0") ∧
    (blankOrNone d "db_sought" → blankOrNone d "retrieval" →
      ((generate_diagram d).boxes.filter (fun b => b.id == BoxId.dbSought)).map
        (fun b => b.lines.map TextLine.text) =
        [["Reports sought for retrieval (n = 0)"]]) := by
  refine ⟨fun h => getCount1_blank h,
          fun h1 h2 => getCount2_blank h1 h2,
          fun h1 h2 => getCount2_blank h1 h2,
          fun h1 h2 => getCount2_blank h1 h2,
          fun h1 h2 => getCount2_blank h1 h2,
          fun h1 h2 => getCount2_blank h1 h2,
          fun h1 h2 => getCount2_blank h1 h2,
          fun h => getCount1_blank h,
          fun h1 h2 => getCount2_blank h1 h2,
          fun h1 h2 => getCount2_blank h1 h2,
          fun h => getCount1_blank h,
          fun h1 h2 => getCount2_blank h1 h2,
          fun h1 h2 => getCount2_blank h1 h2,
          fun h => getCount1_blank h,
          fun h => getCount1_blank h,
          fun hb1 hb2 => ?_⟩
  have hz : (readFields (fget d)).db_sou = "0" := getCount2_blank hb1 hb2
  unfold generate_diagram
  rw [render_boxes]
  unfold planBoxes
  by_cases h1 : (readFields (fget d)).other_nr = "" <;>
    by_cases h2 : otherEligCond (readFields (fget d)) <;>
      simp +decide [h1, h2, List.filter_cons, List.filter_append, hz]

/-- Witness for C9 (amended) at concrete inputs: absent and present-but-blank
count keys both render the zero count. -/
theorem missing_counts_render_zero_witness :
    (readFields (fget [])).prev_n = "0" ∧
    (readFields (fget [("db_sought", "")])).db_sou = "0" ∧
    ((generate_diagram []).boxes.filter (fun b => b.id == BoxId.dbSought)).map
      (fun b => b.lines.map TextLine.text) = [["Reports sought for retrieval (n = 0)"]] :=
  ⟨(missing_counts_render_zero []).1 (Or.inl rfl),
   (missing_counts_render_zero [("db_sought", "")]).2.2.2.2.2.2.1 (Or.inr rfl) (Or.inl rfl),
   (missing_counts_render_zero []).2.2.2.2.2.2.2.2.2.2.2.2.2.2.2 (Or.inl rfl) (Or.inl rfl)⟩
